import Mathlib

/-!
Shallow embedding of the subscription / payment-gateway module of the
go-backend repository, together with proofs about the spec claims.

Conventions of the embedding:
* Go strings are byte sequences; wherever the code converts a string to
  bytes we use a UTF-8 encoder over the Lean string.
* Machine words are `Nat` reduced mod 2^32 where Go uses `uint32`.
* Fallible Go code is modelled with `Except` / an `Outcome` type whose
  `panic` constructor represents a Go runtime panic (failed type
  assertion, `uuid.MustParse` on an invalid string, ...).
* JSON values that the service manipulates through `map[string]interface{}`
  are modelled by the inductive `JValue`; objects are association lists
  with the first binding of a key authoritative, and map update replaces
  in place (Go maps have unique keys after `json.Unmarshal`).
-/

set_option autoImplicit false
set_option maxRecDepth 40000

namespace GoBackend

/-! ## Bytes and 32-bit words -/

/-- Reduce a natural number to a 32-bit word, as Go `uint32` arithmetic does. -/
def w32 (n : Nat) : Nat := n % 4294967296

/-- 32-bit addition. -/
def add32 (a b : Nat) : Nat := (a + b) % 4294967296

/-- 32-bit bitwise complement (operand assumed < 2^32). -/
def not32 (x : Nat) : Nat := x ^^^ 4294967295

/-- Rotate a 32-bit word right by `n` bits. -/
def rotr32 (n x : Nat) : Nat := w32 ((x >>> n) ||| (x <<< (32 - n)))

/-- Big-endian bytes of a 32-bit word. -/
def wordBytes (w : Nat) : List Nat :=
  [(w >>> 24) % 256, (w >>> 16) % 256, (w >>> 8) % 256, w % 256]

/-- Big-endian bytes of a 64-bit length field. -/
def be64 (n : Nat) : List Nat :=
  [(n >>> 56) % 256, (n >>> 48) % 256, (n >>> 40) % 256, (n >>> 32) % 256,
   (n >>> 24) % 256, (n >>> 16) % 256, (n >>> 8) % 256, n % 256]

/-- UTF-8 encoding of one character (Go strings hold UTF-8 bytes). -/
def charUTF8 (c : Char) : List Nat :=
  let n := c.toNat
  if n < 128 then [n]
  else if n < 2048 then [192 + n / 64, 128 + n % 64]
  else if n < 65536 then [224 + n / 4096, 128 + n / 64 % 64, 128 + n % 64]
  else [240 + n / 262144, 128 + n / 4096 % 64, 128 + n / 64 % 64, 128 + n % 64]

/-- The byte sequence of a Go string (`[]byte(s)`). -/
def strBytes (s : String) : List Nat := s.data.flatMap charUTF8

/-! ## SHA-256 (FIPS 180-4), executable over byte lists -/

/-- The first 64 primes; SHA-256 seeds its tables from their roots. -/
def sha2Primes : List Nat :=
  [2, 3, 5, 7, 11, 13, 17, 19,
   23, 29, 31, 37, 41, 43, 47, 53,
   59, 61, 67, 71, 73, 79, 83, 89,
   97, 101, 103, 107, 109, 113, 127, 131,
   137, 139, 149, 151, 157, 163, 167, 173,
   179, 181, 191, 193, 197, 199, 211, 223,
   227, 229, 233, 239, 241, 251, 257, 263,
   269, 271, 277, 281, 283, 293, 307, 311]

/-- Fuelled binary search for the integer e-th root (largest x with
x^e <= n, maintaining lo^e <= n < hi^e). -/
def rootGo (e n : Nat) : Nat → Nat → Nat → Nat
  | 0, lo, _ => lo
  | fuel + 1, lo, hi =>
    if hi ≤ lo + 1 then lo
    else
      let mid := (lo + hi) / 2
      if mid ^ e ≤ n then rootGo e n fuel mid hi else rootGo e n fuel lo mid

/-- Integer e-th root. -/
def introot (e n : Nat) : Nat := rootGo e n 200 0 (n + 1)

/-- The SHA-256 round constants: the first 32 fractional bits of the cube
roots of the first 64 primes (FIPS 180-4 section 4.2.2). -/
def shaK : List Nat := sha2Primes.map (fun p => w32 (introot 3 (p <<< 96)))

/-- Working state of the compression function (eight 32-bit words). -/
structure Hash8 where
  a : Nat
  b : Nat
  c : Nat
  d : Nat
  e : Nat
  f : Nat
  g : Nat
  h : Nat

/-- One word of the initial hash: the first 32 fractional bits of the
square root of a prime (FIPS 180-4 section 5.3.3). -/
def shaH0 (p : Nat) : Nat := w32 (introot 2 (p <<< 64))

/-- SHA-256 initial hash value. -/
def shaInit : Hash8 :=
  ⟨shaH0 2, shaH0 3, shaH0 5, shaH0 7, shaH0 11, shaH0 13, shaH0 17, shaH0 19⟩

def smallSig0 (x : Nat) : Nat := (rotr32 7 x) ^^^ (rotr32 18 x) ^^^ (x >>> 3)

def smallSig1 (x : Nat) : Nat := (rotr32 17 x) ^^^ (rotr32 19 x) ^^^ (x >>> 10)

def bigSig0 (x : Nat) : Nat := (rotr32 2 x) ^^^ (rotr32 13 x) ^^^ (rotr32 22 x)

def bigSig1 (x : Nat) : Nat := (rotr32 6 x) ^^^ (rotr32 11 x) ^^^ (rotr32 25 x)

/-- SHA-256 message padding: append `0x80`, zeros, and the 64-bit bit length. -/
def shaPad (msg : List Nat) : List Nat :=
  let l := msg.length
  let z := (120 - ((l + 1) % 64)) % 64
  msg ++ 128 :: List.replicate z 0 ++ be64 (l * 8)

/-- Group bytes into big-endian 32-bit words. -/
def toWords : List Nat → List Nat
  | b0 :: b1 :: b2 :: b3 :: rest => (((b0 * 256 + b1) * 256 + b2) * 256 + b3) :: toWords rest
  | _ => []

/-- Split a word list into 16-word blocks (fuel-driven so it reduces in the kernel). -/
def chunks16 : Nat → List Nat → List (List Nat)
  | 0, _ => []
  | _, [] => []
  | fuel + 1, ws => ws.take 16 :: chunks16 fuel (ws.drop 16)

/-- Extend a 16-word block to the 64-word message schedule. -/
def extendSchedule (ws : Array Nat) : Array Nat :=
  (List.range 48).foldl
    (fun w _ =>
      let t := w.size
      w.push (add32 (add32 (smallSig1 (w.getD (t - 2) 0)) (w.getD (t - 7) 0))
               (add32 (smallSig0 (w.getD (t - 15) 0)) (w.getD (t - 16) 0))))
    ws

/-- One round of the SHA-256 compression function. -/
def shaRound (st : Hash8) (k w : Nat) : Hash8 :=
  let t1 := add32 st.h (add32 (bigSig1 st.e)
    (add32 ((st.e &&& st.f) ^^^ ((not32 st.e) &&& st.g)) (add32 k w)))
  let t2 := add32 (bigSig0 st.a) (((st.a &&& st.b) ^^^ (st.a &&& st.c)) ^^^ (st.b &&& st.c))
  { a := add32 t1 t2, b := st.a, c := st.b, d := st.c,
    e := add32 st.d t1, f := st.e, g := st.f, h := st.g }

/-- Compress one 16-word block into the running hash. -/
def compressChunk (h0 : Hash8) (chunk : List Nat) : Hash8 :=
  let ws := extendSchedule chunk.toArray
  let st := (shaK.zip ws.toList).foldl (fun s kw => shaRound s kw.1 kw.2) h0
  { a := add32 h0.a st.a, b := add32 h0.b st.b, c := add32 h0.c st.c, d := add32 h0.d st.d,
    e := add32 h0.e st.e, f := add32 h0.f st.f, g := add32 h0.g st.g, h := add32 h0.h st.h }

/-- SHA-256 digest (32 bytes) of a byte list. -/
def sha256 (msg : List Nat) : List Nat :=
  let ws := toWords (shaPad msg)
  let fin := (chunks16 ws.length ws).foldl compressChunk shaInit
  wordBytes fin.a ++ wordBytes fin.b ++ wordBytes fin.c ++ wordBytes fin.d ++
  wordBytes fin.e ++ wordBytes fin.f ++ wordBytes fin.g ++ wordBytes fin.h

/-- HMAC-SHA256 (RFC 2104) with a 64-byte block size, as `crypto/hmac` computes it. -/
def hmacSHA256 (key msg : List Nat) : List Nat :=
  let k0 := if 64 < key.length then sha256 key else key
  let k1 := k0 ++ List.replicate (64 - k0.length) 0
  sha256 ((k1.map (fun b => b ^^^ 92)) ++ sha256 ((k1.map (fun b => b ^^^ 54)) ++ msg))

/-- One lowercase hex digit. -/
def hexDigit (n : Nat) : Char := if n < 10 then Char.ofNat (48 + n) else Char.ofNat (87 + n)

/-- Lowercase hex encoding of a byte list, as Go `hex.EncodeToString`. -/
def hexEncode (bs : List Nat) : String :=
  String.mk (bs.flatMap (fun b => [hexDigit (b / 16 % 16), hexDigit (b % 16)]))

/-- `verifySignature` from the subscription service: compare the submitted
signature with the lowercase hex HMAC-SHA256 of the message under the
tenant key secret (`hmac.Equal` is byte equality in constant time). -/
def verifySignature (message signature keySecret : String) : Bool :=
  signature == hexEncode (hmacSHA256 (strBytes keySecret) (strBytes message))

/-- `verifyWebhookSignature` from the subscription service: same check over
the raw webhook body under the tenant webhook secret. -/
def verifyWebhookSignature (payload : List Nat) (signature webhookSecret : String) : Bool :=
  signature == hexEncode (hmacSHA256 (strBytes webhookSecret) payload)

/-! ## JSON values (`map[string]interface{}` after `json.Unmarshal`) -/

/-- A JSON value as Go decodes it into `interface{}`.  Numbers of interest
(unix timestamps) are integers, decoded by Go as `float64`; we carry them
as `Int`. -/
inductive JValue where
  | jnull : JValue
  | jbool : Bool → JValue
  | jnum : Int → JValue
  | jstr : String → JValue
  | jobj : List (String × JValue) → JValue
  | jarr : List JValue → JValue

/-- An object body: bindings of a Go JSON map (keys distinct after decode). -/
abbrev JObj := List (String × JValue)

/-- Map read `m[k]`: the first binding of the key, `none` when absent
(a missing Go map key yields the nil interface value). -/
def jlookup (o : JObj) (k : String) : Option JValue :=
  (o.find? (fun p => p.1 == k)).map (·.2)

/-- Map write `m[k] = v`: replace the binding of the key in place (keys are
unique after decode) or append a new one. -/
def jinsert : JObj → String → JValue → JObj
  | [], k, v => [(k, v)]
  | (k1, v1) :: rest, k, v =>
    if k1 == k then (k, v) :: rest else (k1, v1) :: jinsert rest k v

/-- Type assertion `v.(string)`: `none` models the panicking failure case. -/
def JValue.asString : JValue → Option String
  | .jstr s => some s
  | _ => none

/-- Type assertion `v.(map[string]interface{})`. -/
def JValue.asObj : JValue → Option JObj
  | .jobj o => some o
  | _ => none

/-- Type assertion `v.(float64)` (JSON numbers). -/
def JValue.asNum : JValue → Option Int
  | .jnum n => some n
  | _ => none

/-- Type assertion `v.(bool)`. -/
def JValue.asBool : JValue → Option Bool
  | .jbool b => some b
  | _ => none

/-! ## Subscription data model (`subscription/models`) -/

/-- `models.SubscriptionStatus` is a string type in the source; the named
constants follow. -/
abbrev SubscriptionStatus := String

def SubscriptionStatusCreated : SubscriptionStatus := "created"
def SubscriptionStatusAuthenticated : SubscriptionStatus := "authenticated"
def SubscriptionStatusActive : SubscriptionStatus := "active"
def SubscriptionStatusPaused : SubscriptionStatus := "paused"
def SubscriptionStatusCancelled : SubscriptionStatus := "cancelled"
def SubscriptionStatusCompleted : SubscriptionStatus := "completed"
def SubscriptionStatusExpired : SubscriptionStatus := "expired"

/-- `models.Subscription`.  `metadata` is stored in Go as a JSON string and
parsed to a map on use; we carry the parsed object (the marshal/unmarshal
round trip on a well-formed object is the identity).  Times are unix
seconds. -/
structure Subscription where
  id : String
  razorpayConfigID : String
  userID : String
  appName : String
  phone : String
  email : String
  razorpaySubscriptionID : String
  razorpayCustomerID : String
  razorpayPlanID : String
  status : SubscriptionStatus
  amount : Int
  currency : String
  frequency : String
  totalCount : Int
  startAt : Option Int
  endAt : Option Int
  nextChargeAt : Option Int
  shortURL : String
  metadata : JObj

/-- The subscription table. -/
abbrev SubStore := List Subscription

/-- `FindByRazorpaySubscriptionID`: first row matching the gateway id. -/
def findByRazorpaySubscriptionID (store : SubStore) (rid : String) : Option Subscription :=
  store.find? (fun s => s.razorpaySubscriptionID == rid)

/-- `Update` (gorm `Save`): replace the row with the same primary key. -/
def updateSub (store : SubStore) (s : Subscription) : SubStore :=
  store.map (fun t => if t.id == s.id then s else t)

/-- `UpdateStatus`: set only the status of the row with the given primary
key; touching no row is not an error. -/
def updateStatus (store : SubStore) (id : String) (st : SubscriptionStatus) : SubStore :=
  store.map (fun t => if t.id == id then { t with status := st } else t)

/-- Accepted forms of `uuid.Parse` (google/uuid): canonical 36-char
hyphenated hex, `urn:uuid:` prefixed, braced, or 32 raw hex characters. -/
def isHexChar (c : Char) : Bool :=
  (48 ≤ c.toNat && c.toNat ≤ 57) || (97 ≤ c.toNat && c.toNat ≤ 102) ||
  (65 ≤ c.toNat && c.toNat ≤ 70)

/-- Canonical `8-4-4-4-12` UUID text. -/
def isCanonicalUUID (l : List Char) : Bool :=
  l.length == 36 &&
  (List.range 36).all (fun i =>
    if i == 8 || i == 13 || i == 18 || i == 23 then l.getD i ' ' == '-'
    else isHexChar (l.getD i ' '))

/-- `uuid.Parse` succeeds exactly on these strings. -/
def isUUIDString (s : String) : Bool :=
  let l := s.data
  isCanonicalUUID l ||
  (l.length == 45 && String.mk (l.take 9) == "urn:uuid:" && isCanonicalUUID (l.drop 9)) ||
  (l.length == 38 && l.getD 0 ' ' == '{' && l.getD 37 ' ' == '\x7d' && isCanonicalUUID ((l.drop 1).take 36)) ||
  (l.length == 32 && l.all isHexChar)

/-! ## Outcomes: Go returns and panics -/

/-- Result of running a Go function that may return an error or panic. -/
inductive Outcome (ε : Type) (α : Type) where
  | ok : α → Outcome ε α
  | err : ε → Outcome ε α
  | panic : Outcome ε α

/-- Errors surfaced by the subscription service paths we model. -/
inductive SubErr where
  | recordNotFound
  | noSubscriptionId
  | configNotFound
  | invalidSignature
  | subscriptionNotFound
  | gatewayFetchFailed
  deriving Repr, DecidableEq

/-! ## Tenant configs (`config/models.RazorpayConfig`) -/

/-- A tenant configuration as the service layer sees it.  The repository
encrypts the three credential fields on write and decrypts them on every
read; the store here holds the plaintext values handed to the service
(encryption is a bijection on the stored strings). -/
structure RazorpayConfig where
  id : String
  appName : String
  environment : String
  razorpayKeyID : String
  razorpayKeySecret : String
  razorpayWebhookSecret : String
  isActive : Bool
  metadata : JObj
  createdAt : Int
  updatedAt : Int

/-- The razorpay_configs table. -/
abbrev ConfigStore := List RazorpayConfig

/-- Repository `FindByID` (no activity filter). -/
def findConfigByID (cs : ConfigStore) (id : String) : Option RazorpayConfig :=
  cs.find? (fun c => c.id == id)

/-! ## Webhook handlers (`subscription/service`) -/

/-- The two panicking type assertions opening every handler:
`payload["subscription"].(map[string]interface{})["entity"].(map[string]interface{})`. -/
def extractEntity (payload : JObj) : Option JObj :=
  ((jlookup payload "subscription").bind JValue.asObj).bind
    (fun sub => (jlookup sub "entity").bind JValue.asObj)

/-- Run a handler body on the entity object and its `id` string; a failed
type assertion is a panic. -/
def withEntity (payload : JObj) (k : JObj → String → Outcome SubErr SubStore) :
    Outcome SubErr SubStore :=
  match extractEntity payload with
  | none => .panic
  | some ent =>
    match (jlookup ent "id").bind JValue.asString with
    | none => .panic
    | some rid => k ent rid

/-- `meta["authenticated"].(bool)` succeeded with value `true`. -/
def metaAuthenticatedTrue (meta : JObj) : Bool :=
  match jlookup meta "authenticated" with
  | some (.jbool b) => b
  | _ => false

/-- The idempotent authentication marker: set `authenticated` and, only when
absent, `authenticated_at`; skip everything when already `true`. -/
def authMarkMetadata (meta : JObj) (now : String) : JObj :=
  if metaAuthenticatedTrue meta then meta
  else
    let m := jinsert meta "authenticated" (.jbool true)
    if (jlookup m "authenticated_at").isSome then m
    else jinsert m "authenticated_at" (.jstr now)

/-- The record update `handleSubscriptionAuthenticated` applies to a found,
not-cancelled subscription: customer id, schedule hints, metadata marker,
then the gateway-reported status. -/
def authTransition (ent : JObj) (now : String) (sub : Subscription) : Subscription :=
  let sub := match (jlookup ent "customer_id").bind JValue.asString with
    | some cid => { sub with razorpayCustomerID := cid }
    | none => sub
  let sub := match (jlookup ent "start_at").bind JValue.asNum with
    | some t => { sub with startAt := some t }
    | none => sub
  let sub := match (jlookup ent "charge_at").bind JValue.asNum with
    | some t => { sub with nextChargeAt := some t }
    | none => sub
  let sub := { sub with metadata := authMarkMetadata sub.metadata now }
  match (jlookup ent "status").bind JValue.asString with
  | some st => { sub with status := st }
  | none => sub

/-- `handleSubscriptionAuthenticated`: ignore the event for an
already-cancelled subscription, otherwise apply `authTransition`. -/
def handleSubscriptionAuthenticated (payload : JObj) (now : String) (store : SubStore) :
    Outcome SubErr SubStore :=
  withEntity payload fun ent rid =>
    match findByRazorpaySubscriptionID store rid with
    | none => .err .recordNotFound
    | some sub =>
      if sub.status == SubscriptionStatusCancelled then .ok store
      else .ok (updateSub store (authTransition ent now sub))

/-- `handleSubscriptionActivated`: record the start hint only, status untouched. -/
def handleSubscriptionActivated (payload : JObj) (store : SubStore) :
    Outcome SubErr SubStore :=
  withEntity payload fun ent rid =>
    match findByRazorpaySubscriptionID store rid with
    | none => .err .recordNotFound
    | some sub =>
      let sub := match (jlookup ent "start_at").bind JValue.asNum with
        | some t => { sub with startAt := some t }
        | none => sub
      .ok (updateSub store sub)

/-- `handleSubscriptionCharged`: record the next charge hint; promote only a
created or authenticated subscription to active. -/
def handleSubscriptionCharged (payload : JObj) (store : SubStore) :
    Outcome SubErr SubStore :=
  withEntity payload fun ent rid =>
    match findByRazorpaySubscriptionID store rid with
    | none => .err .recordNotFound
    | some sub =>
      let sub := match (jlookup ent "charge_at").bind JValue.asNum with
        | some t => { sub with nextChargeAt := some t }
        | none => sub
      let sub :=
        if sub.status == SubscriptionStatusCreated || sub.status == SubscriptionStatusAuthenticated
        then { sub with status := SubscriptionStatusActive } else sub
      .ok (updateSub store sub)

/-- `handleSubscriptionPending`: the source calls
`uuid.MustParse(razorpaySubID)` — a panic unless the gateway subscription id
happens to be UUID-shaped — and then `UpdateStatus`, which filters on the
internal primary key, not the gateway id. -/
def handleSubscriptionPending (payload : JObj) (store : SubStore) :
    Outcome SubErr SubStore :=
  withEntity payload fun _ rid =>
    if isUUIDString rid then .ok (updateStatus store rid SubscriptionStatusCreated)
    else .panic

/-- `handleSubscriptionHalted`: status forced to expired. -/
def handleSubscriptionHalted (payload : JObj) (store : SubStore) :
    Outcome SubErr SubStore :=
  withEntity payload fun _ rid =>
    match findByRazorpaySubscriptionID store rid with
    | none => .err .recordNotFound
    | some sub => .ok (updateSub store { sub with status := SubscriptionStatusExpired })

/-- `handleSubscriptionCancelled`: status forced to cancelled, end hint kept. -/
def handleSubscriptionCancelled (payload : JObj) (store : SubStore) :
    Outcome SubErr SubStore :=
  withEntity payload fun ent rid =>
    match findByRazorpaySubscriptionID store rid with
    | none => .err .recordNotFound
    | some sub =>
      let sub := { sub with status := SubscriptionStatusCancelled }
      let sub := match (jlookup ent "end_at").bind JValue.asNum with
        | some t => { sub with endAt := some t }
        | none => sub
      .ok (updateSub store sub)

/-- `handleSubscriptionCompleted`: status forced to completed, end hint kept. -/
def handleSubscriptionCompleted (payload : JObj) (store : SubStore) :
    Outcome SubErr SubStore :=
  withEntity payload fun ent rid =>
    match findByRazorpaySubscriptionID store rid with
    | none => .err .recordNotFound
    | some sub =>
      let sub := { sub with status := SubscriptionStatusCompleted }
      let sub := match (jlookup ent "ended_at").bind JValue.asNum with
        | some t => { sub with endAt := some t }
        | none => sub
      .ok (updateSub store sub)

/-- `handleSubscriptionPaused`: status forced to paused. -/
def handleSubscriptionPaused (payload : JObj) (store : SubStore) :
    Outcome SubErr SubStore :=
  withEntity payload fun _ rid =>
    match findByRazorpaySubscriptionID store rid with
    | none => .err .recordNotFound
    | some sub => .ok (updateSub store { sub with status := SubscriptionStatusPaused })

/-- `handleSubscriptionResumed`: status forced to active. -/
def handleSubscriptionResumed (payload : JObj) (store : SubStore) :
    Outcome SubErr SubStore :=
  withEntity payload fun _ rid =>
    match findByRazorpaySubscriptionID store rid with
    | none => .err .recordNotFound
    | some sub => .ok (updateSub store { sub with status := SubscriptionStatusActive })

/-- The event-type switch at the end of `HandleWebhook`; an unknown event
type is deliberately a no-op. -/
def dispatchEvent (eventType : String) (payloadData : JObj) (now : String) (store : SubStore) :
    Outcome SubErr SubStore :=
  if eventType == "subscription.authenticated" then handleSubscriptionAuthenticated payloadData now store
  else if eventType == "subscription.activated" then handleSubscriptionActivated payloadData store
  else if eventType == "subscription.charged" then handleSubscriptionCharged payloadData store
  else if eventType == "subscription.pending" then handleSubscriptionPending payloadData store
  else if eventType == "subscription.halted" then handleSubscriptionHalted payloadData store
  else if eventType == "subscription.cancelled" then handleSubscriptionCancelled payloadData store
  else if eventType == "subscription.completed" then handleSubscriptionCompleted payloadData store
  else if eventType == "subscription.paused" then handleSubscriptionPaused payloadData store
  else if eventType == "subscription.resumed" then handleSubscriptionResumed payloadData store
  else .ok store

/-- The ok-checked extraction of the gateway subscription id that
`HandleWebhook` performs before any trust is established. -/
def extractWebhookSubId (payloadData : JObj) : Option String :=
  (((jlookup payloadData "subscription").bind JValue.asObj).bind
    (fun sw => (jlookup sw "entity").bind JValue.asObj)).bind
    (fun ent => (jlookup ent "id").bind JValue.asString)

/-- `HandleWebhook` on an event object that `json.Unmarshal` produced from
the raw body: the panicking assertions on `event` and `payload` come first,
then tenancy resolution from the payload, then the HMAC check, then the
per-event dispatch. -/
def HandleWebhook (event : JObj) (rawBody : List Nat) (signature : String)
    (store : SubStore) (configs : ConfigStore) (now : String) : Outcome SubErr SubStore :=
  match (jlookup event "event").bind JValue.asString with
  | none => .panic
  | some eventType =>
    match (jlookup event "payload").bind JValue.asObj with
    | none => .panic
    | some payloadData =>
      match extractWebhookSubId payloadData with
      | none => .err .noSubscriptionId
      | some rid =>
        match findByRazorpaySubscriptionID store rid with
        | none => .err .subscriptionNotFound
        | some sub =>
          match findConfigByID configs sub.razorpayConfigID with
          | none => .err .configNotFound
          | some config =>
            if verifyWebhookSignature rawBody signature config.razorpayWebhookSecret then
              dispatchEvent eventType payloadData now store
            else .err .invalidSignature

/-! ## VerifyPayment (`subscription/service.VerifyPayment`) -/

/-- `models.VerifyPaymentRequest`. -/
structure VerifyPaymentRequest where
  razorpaySubscriptionID : String
  razorpayPaymentID : String
  razorpaySignature : String

/-- `VerifyPayment`: find the subscription, resolve its tenant config,
check the HMAC over `paymentId|subscriptionId`, confirm the subscription
exists at the gateway (`gatewaySubs` is the set of gateway-side ids), then
unconditionally set the status to authenticated, record the idempotent
metadata marker and persist.  Returns the new store and the updated row. -/
def VerifyPayment (req : VerifyPaymentRequest) (store : SubStore) (configs : ConfigStore)
    (gatewaySubs : List String) (now : String) : Outcome SubErr (SubStore × Subscription) :=
  match findByRazorpaySubscriptionID store req.razorpaySubscriptionID with
  | none => .err .subscriptionNotFound
  | some sub =>
    match findConfigByID configs sub.razorpayConfigID with
    | none => .err .configNotFound
    | some config =>
      if verifySignature (req.razorpayPaymentID ++ "|" ++ req.razorpaySubscriptionID)
          req.razorpaySignature config.razorpayKeySecret then
        if gatewaySubs.contains req.razorpaySubscriptionID then
          let sub := { sub with status := SubscriptionStatusAuthenticated }
          let sub := { sub with metadata := authMarkMetadata sub.metadata now }
          .ok (updateSub store sub, sub)
        else .err .gatewayFetchFailed
      else .err .invalidSignature

/-! ## Checkout payload building (`CreateCheckoutURL`) -/

/-- The fields of `models.CreateSubscriptionRequest` that drive the gateway
payload. -/
structure CreateSubscriptionRequest where
  planID : String
  totalCount : Int
  startAt : Option Int
  quantity : Int
  notes : Option JObj
  initialChargeAmount : Option Int
  firstChargeDelayDays : Option Int

/-- The plan record the gateway reports (`item.amount` in minor units and
`period`). -/
structure PlanInfo where
  amount : Int
  period : String
  currency : String

/-- One entry of the `addons` array of the gateway payload. -/
structure AddonItem where
  name : String
  amount : Int
  currency : String
  deriving DecidableEq

/-- The `subscriptionData` map handed to `razorpayClient.Subscription.Create`;
`addons = none` means the key is absent from the map. -/
structure GatewaySubscriptionData where
  planId : String
  quantity : Int
  customerNotify : Bool
  addons : Option AddonItem
  totalCount : Int
  expireBy : Int
  startAt : Int
  notes : Option JObj

/-- ASCII whitespace test for `strings.TrimSpace` (inputs here are ASCII). -/
def isSpaceChar (c : Char) : Bool := c == ' ' || c == '\t' || c == '\n' || c == '\r'

/-- `strings.TrimSpace`, executable over the character list. -/
def trimGo (s : String) : String :=
  String.mk (((s.data.dropWhile isSpaceChar).reverse.dropWhile isSpaceChar).reverse)

/-- `strings.ToLower` on ASCII input, executable over the character list. -/
def toLowerGo (s : String) : String :=
  String.mk (s.data.map (fun c =>
    if 65 ≤ c.toNat && c.toNat ≤ 90 then Char.ofNat (c.toNat + 32) else c))

/-- The `switch planPeriod` day mapping (default 30). -/
def periodDays (p : String) : Int :=
  if p == "daily" then 1
  else if p == "weekly" then 7
  else if p == "monthly" then 30
  else if p == "yearly" then 365
  else 30

inductive CheckoutErr where
  | emptyPlanID
  deriving DecidableEq

/-- The pure payload-building part of `CreateCheckoutURL` (lines 117-241 of
the service): plan-id trim, initial-charge and delay defaults, the both-zero
special case (which fetches `plan`), the addon rule, total count, expiry and
start time, with an explicit `start_at` override.  `now` is unix seconds. -/
def buildCheckoutData (req : CreateSubscriptionRequest) (plan : PlanInfo) (now : Int) :
    Except CheckoutErr GatewaySubscriptionData :=
  let planID := trimGo req.planID
  if planID == "" then .error .emptyPlanID
  else
    let initialChargeAmountPaise : Int :=
      match req.initialChargeAmount with
      | none => 100
      | some a => if a ≤ 0 then 0 else a * 100
    let firstChargeDelayDays : Int :=
      match req.firstChargeDelayDays with
      | none => 1
      | some d => if 0 ≤ d then d else 1
    let special := req.initialChargeAmount == some 0 && req.firstChargeDelayDays == some 0
    let initialChargeAmountPaise := if special then plan.amount else initialChargeAmountPaise
    let firstChargeDelayDays :=
      if special then periodDays (toLowerGo plan.period) else firstChargeDelayDays
    let addons : Option AddonItem :=
      if 0 < initialChargeAmountPaise then
        some { name := "Initial Charge", amount := initialChargeAmountPaise, currency := "INR" }
      else none
    let totalCount := if 0 < req.totalCount then req.totalCount else 120
    let expireBy := now + 7 * 24 * 3600
    let startAt :=
      if 0 < firstChargeDelayDays then now + firstChargeDelayDays * 24 * 3600 else now + 3600
    let startAt := match req.startAt with | some t => t | none => startAt
    let quantity := if 0 < req.quantity then req.quantity else 1
    .ok { planId := planID, quantity := quantity, customerNotify := false, addons := addons,
          totalCount := totalCount, expireBy := expireBy, startAt := startAt, notes := req.notes }

/-! ## Config service (`config/service`, `config/repository`, migration) -/

/-- The response shape `RazorpayConfigResponse` — no credential fields. -/
structure RazorpayConfigResponse where
  id : String
  appName : String
  environment : String
  isActive : Bool
  metadata : JObj
  createdAt : Int
  updatedAt : Int

/-- `RazorpayConfig.ToResponse`: drop the three credential fields. -/
def RazorpayConfig.ToResponse (c : RazorpayConfig) : RazorpayConfigResponse :=
  { id := c.id, appName := c.appName, environment := c.environment, isActive := c.isActive,
    metadata := c.metadata, createdAt := c.createdAt, updatedAt := c.updatedAt }

inductive ConfigErr where
  | conflict        -- "app_name and environment combination already exists"
  | uniqueViolation -- the UNIQUE(app_name, environment) constraint of the table
  | notFound        -- gorm.ErrRecordNotFound / "razorpay config not found"
  deriving DecidableEq

/-- Repository `FindByAppNameAndEnv`: note the `is_active = true` filter. -/
def findConfigByAppNameAndEnv (cs : ConfigStore) (appName env : String) :
    Option RazorpayConfig :=
  cs.find? (fun c => c.appName == appName && c.environment == env && c.isActive)

/-- Repository `Create` against the schema of the migration, which declares
`UNIQUE(app_name, environment)` over all rows regardless of `is_active`. -/
def repoCreateConfig (cs : ConfigStore) (c : RazorpayConfig) : Except ConfigErr ConfigStore :=
  if cs.any (fun d => d.appName == c.appName && d.environment == c.environment) then
    .error .uniqueViolation
  else .ok (cs ++ [c])

/-- `models.CreateRazorpayConfigRequest`. -/
structure CreateRazorpayConfigRequest where
  appName : String
  environment : String
  razorpayKeyID : String
  razorpayKeySecret : String
  razorpayWebhookSecret : String
  isActive : Option Bool
  metadata : Option JObj

/-- `models.UpdateRazorpayConfigRequest`. -/
structure UpdateRazorpayConfigRequest where
  razorpayKeyID : Option String
  razorpayKeySecret : Option String
  razorpayWebhookSecret : Option String
  isActive : Option Bool
  metadata : Option JObj

/-- `CreateRazorpayConfig`: the duplicate check consults the active-only
finder, then the insert is subject to the database unique constraint.
`newId`/`tnow` stand for the generated id and timestamps. -/
def CreateRazorpayConfig (req : CreateRazorpayConfigRequest) (store : ConfigStore)
    (newId : String) (tnow : Int) : Except ConfigErr (ConfigStore × RazorpayConfigResponse) :=
  match findConfigByAppNameAndEnv store req.appName req.environment with
  | some _ => .error .conflict
  | none =>
    let c : RazorpayConfig :=
      { id := newId, appName := req.appName, environment := req.environment,
        razorpayKeyID := req.razorpayKeyID, razorpayKeySecret := req.razorpayKeySecret,
        razorpayWebhookSecret := req.razorpayWebhookSecret,
        isActive := req.isActive.getD true,
        metadata := req.metadata.getD [], createdAt := tnow, updatedAt := tnow }
    match repoCreateConfig store c with
    | .error e => .error e
    | .ok cs => .ok (cs, c.ToResponse)

/-- `GetRazorpayConfigByID`. -/
def GetRazorpayConfigByID (store : ConfigStore) (id : String) :
    Except ConfigErr RazorpayConfigResponse :=
  match findConfigByID store id with
  | none => .error .notFound
  | some c => .ok c.ToResponse

/-- `GetRazorpayConfigByAppNameAndEnv`. -/
def GetRazorpayConfigByAppNameAndEnv (store : ConfigStore) (appName env : String) :
    Except ConfigErr RazorpayConfigResponse :=
  match findConfigByAppNameAndEnv store appName env with
  | none => .error .notFound
  | some c => .ok c.ToResponse

/-- The paginated list response. -/
structure PaginatedRazorpayConfigsResponse where
  data : List RazorpayConfigResponse
  page : Int
  pageSize : Int
  total : Int
  totalPages : Int
  nextPage : Option Int
  prevPage : Option Int

/-- `GetAllRazorpayConfigs`: clamp page/pageSize, filter, slice in the
repository's result order (the store list models the `ORDER BY` order), and
compute the pagination metadata exactly as the service does. -/
def GetAllRazorpayConfigs (store : ConfigStore) (page pageSize : Int) (activeOnly : Bool) :
    PaginatedRazorpayConfigsResponse :=
  let page := if page < 1 then 1 else page
  let pageSize := if pageSize < 1 || 100 < pageSize then 10 else pageSize
  let filtered := if activeOnly then store.filter (fun c => c.isActive) else store
  let total : Int := filtered.length
  let offset := ((page - 1) * pageSize).toNat
  let data := ((filtered.drop offset).take pageSize.toNat).map RazorpayConfig.ToResponse
  let totalPages := total / pageSize + (if total % pageSize != 0 then 1 else 0)
  { data := data, page := page, pageSize := pageSize, total := total, totalPages := totalPages,
    nextPage := if page < totalPages then some (page + 1) else none,
    prevPage := if 1 < page then some (page - 1) else none }

/-- `UpdateRazorpayConfig`: partial merge of the provided fields, then save.
`tnow` models the refreshed `updated_at`. -/
def UpdateRazorpayConfig (store : ConfigStore) (id : String)
    (req : UpdateRazorpayConfigRequest) (tnow : Int) :
    Except ConfigErr (ConfigStore × RazorpayConfigResponse) :=
  match findConfigByID store id with
  | none => .error .notFound
  | some c =>
    let c :=
      { c with
        razorpayKeyID := req.razorpayKeyID.getD c.razorpayKeyID,
        razorpayKeySecret := req.razorpayKeySecret.getD c.razorpayKeySecret,
        razorpayWebhookSecret := req.razorpayWebhookSecret.getD c.razorpayWebhookSecret,
        isActive := req.isActive.getD c.isActive,
        metadata := req.metadata.getD c.metadata,
        updatedAt := tnow }
    .ok (store.map (fun d => if d.id == id then c else d), c.ToResponse)

/-! ## AES-GCM decryption wrapper (`pkg/secure.DecryptString`) -/

/-- Base64 value of one standard-alphabet character. -/
def b64Val (c : Char) : Option Nat :=
  let n := c.toNat
  if 65 ≤ n && n ≤ 90 then some (n - 65)
  else if 97 ≤ n && n ≤ 122 then some (n - 71)
  else if 48 ≤ n && n ≤ 57 then some (n + 4)
  else if n == 43 then some 62
  else if n == 47 then some 63
  else none

/-- Decode base64 quartets; `=` padding is allowed only in the final group
(Go `StdEncoding.DecodeString`; the decoder here does not skip newlines,
which only narrows the accepted inputs). -/
def b64Groups : List Char → Option (List Nat)
  | [] => some []
  | c0 :: c1 :: c2 :: c3 :: rest =>
    match b64Val c0, b64Val c1 with
    | some v0, some v1 =>
      if c2 == '=' then
        if c3 == '=' && rest.isEmpty then some [v0 * 4 + v1 / 16]
        else none
      else
        match b64Val c2 with
        | some v2 =>
          if c3 == '=' then
            if rest.isEmpty then some [v0 * 4 + v1 / 16, v1 % 16 * 16 + v2 / 4]
            else none
          else
            match b64Val c3 with
            | some v3 =>
              match b64Groups rest with
              | some bs =>
                some ((v0 * 4 + v1 / 16) :: (v1 % 16 * 16 + v2 / 4) :: (v2 % 4 * 64 + v3) :: bs)
              | none => none
            | none => none
        | none => none
    | _, _ => none
  | _ => none

/-- `base64.StdEncoding.DecodeString`. -/
def base64Decode (s : String) : Option (List Nat) := b64Groups s.data

inductive DecryptErr where
  | keyError          -- RAZORPAY_ENCRYPTION_KEY missing or of invalid length
  | base64Error       -- corrupt base64 input
  | ciphertextTooShort
  | openError         -- AES-GCM authentication failure
  deriving DecidableEq

/-- `gcm.NonceSize()` for AES-GCM. -/
def gcmNonceSize : Nat := 12

/-- The key-length validation of `getKey` (AES-128/192/256). -/
def validKeyLen (key : List Nat) : Bool :=
  key.length == 16 || key.length == 24 || key.length == 32

/-- `DecryptString`.  The AES-GCM `Open` primitive is an external
collaborator, passed in as `gcmOpen key nonce ciphertext`; the wrapper
handles the empty string, key validation, base64 decoding, the nonce-length
check, and nonce/ciphertext splitting.  The Go result string is the raw
plaintext byte sequence. -/
def DecryptString (gcmOpen : List Nat → List Nat → List Nat → Option (List Nat))
    (key : List Nat) (ciphertext : String) : Except DecryptErr (List Nat) :=
  if ciphertext == "" then .ok []
  else if validKeyLen key then
    match base64Decode ciphertext with
    | none => .error .base64Error
    | some data =>
      if data.length < gcmNonceSize then .error .ciphertextTooShort
      else
        match gcmOpen key (data.take gcmNonceSize) (data.drop gcmNonceSize) with
        | none => .error .openError
        | some plain => .ok plain
  else .error .keyError

/-! ## Concrete fixtures used by witnesses and counterexamples -/

/-- A sample stored subscription row with a given status and metadata. -/
def sampleSub (st : SubscriptionStatus) (meta : JObj) : Subscription :=
  { id := "aaaaaaaa-0000-0000-0000-000000000001", razorpayConfigID := "cfg-1",
    userID := "bbbbbbbb-0000-0000-0000-000000000002", appName := "app",
    phone := "9999999999", email := "user@example.com",
    razorpaySubscriptionID := "sub_A1", razorpayCustomerID := "", razorpayPlanID := "plan_1",
    status := st, amount := 49900, currency := "INR", frequency := "monthly", totalCount := 0,
    startAt := none, endAt := none, nextChargeAt := none, shortURL := "https://rzp.io/x",
    metadata := meta }

/-- A sample tenant config. -/
def sampleConfig : RazorpayConfig :=
  { id := "cfg-1", appName := "app", environment := "test", razorpayKeyID := "key_id",
    razorpayKeySecret := "secret", razorpayWebhookSecret := "whsecret", isActive := true,
    metadata := [], createdAt := 0, updatedAt := 0 }

/-- A well-formed `subscription.authenticated` payload for `sub_A1`. -/
def authPayload : JObj :=
  [("subscription", .jobj [("entity", .jobj
    [("id", .jstr "sub_A1"), ("status", .jstr "authenticated")])])]

/-! ## C1: cancelled is terminal for the authenticated webhook -/

/-- C1: for every subscription whose stored status is cancelled, processing
a `subscription.authenticated` webhook event for it is a no-op — the
handler returns no error and the store (in particular the status) is
returned unchanged. -/
theorem cancelled_then_authenticated_is_noop
    (payload : JObj) (now : String) (store : SubStore) (ent : JObj) (rid : String)
    (sub : Subscription)
    (hent : extractEntity payload = some ent)
    (hid : (jlookup ent "id").bind JValue.asString = some rid)
    (hfind : findByRazorpaySubscriptionID store rid = some sub)
    (hcan : sub.status = SubscriptionStatusCancelled) :
    handleSubscriptionAuthenticated payload now store = .ok store := by
  simp only [handleSubscriptionAuthenticated, withEntity, hent, hid, hfind, hcan]
  simp

/-- Witness for C1 at a concrete cancelled subscription. -/
theorem cancelled_then_authenticated_is_noop_witness :
    handleSubscriptionAuthenticated authPayload "2026-01-01T00:00:00Z"
        [sampleSub SubscriptionStatusCancelled []] =
      .ok [sampleSub SubscriptionStatusCancelled []] :=
  cancelled_then_authenticated_is_noop authPayload "2026-01-01T00:00:00Z"
    [sampleSub SubscriptionStatusCancelled []] _ "sub_A1"
    (sampleSub SubscriptionStatusCancelled []) rfl rfl rfl rfl

/-! ## C2: signature verification is exact HMAC-SHA256 comparison -/

/-- C2: both verification variants are pure functions of
(message, signature, secret); the hex HMAC-SHA256 of the message under the
secret verifies, and any signature different from that value is rejected. -/
theorem verifySignature_exact :
    (∀ message keySecret : String,
      verifySignature message
        (hexEncode (hmacSHA256 (strBytes keySecret) (strBytes message))) keySecret = true) ∧
    (∀ message signature keySecret : String,
      signature ≠ hexEncode (hmacSHA256 (strBytes keySecret) (strBytes message)) →
      verifySignature message signature keySecret = false) ∧
    (∀ (payload : List Nat) (webhookSecret : String),
      verifyWebhookSignature payload
        (hexEncode (hmacSHA256 (strBytes webhookSecret) payload)) webhookSecret = true) ∧
    (∀ (payload : List Nat) (signature webhookSecret : String),
      signature ≠ hexEncode (hmacSHA256 (strBytes webhookSecret) payload) →
      verifyWebhookSignature payload signature webhookSecret = false) := by
  refine ⟨fun m k => ?_, fun m s k h => ?_, fun p k => ?_, fun p s k h => ?_⟩ <;>
    simp [verifySignature, verifyWebhookSignature] <;> exact h

/-- Witness for C2: a concrete correct signature verifies and a concrete
wrong one is rejected (the HMAC is computed by evaluation). -/
theorem verifySignature_exact_witness :
    verifySignature "pay_P1|sub_A1"
        (hexEncode (hmacSHA256 (strBytes "secret") (strBytes "pay_P1|sub_A1"))) "secret" = true ∧
    verifySignature "pay_P1|sub_A1" "deadbeef" "secret" = false := by
  have h : ("deadbeef" : String) ≠
      hexEncode (hmacSHA256 (strBytes "secret") (strBytes "pay_P1|sub_A1")) := by decide
  exact ⟨verifySignature_exact.1 "pay_P1|sub_A1" "secret",
    verifySignature_exact.2.1 "pay_P1|sub_A1" "deadbeef" "secret" h⟩

/-! ## C4: the pending handler panics on real gateway ids -/

/-- A `subscription.pending` event for the stored subscription `sub_A1`. -/
def pendingPayload : JObj :=
  [("subscription", .jobj [("entity", .jobj
    [("id", .jstr "sub_A1"), ("status", .jstr "pending")])])]

/-- C4: processing `subscription.pending` for an existing subscription does
not set its status to created — the handler calls
`uuid.MustParse` on the gateway subscription id (which is never UUID-shaped)
and panics before reaching the store. -/
theorem pending_webhook_panics :
    handleSubscriptionPending pendingPayload [sampleSub SubscriptionStatusActive []] =
      .panic := by rfl

/-! ## C10: HandleWebhook panics on well-formed JSON lacking the envelope -/

/-- C10: a syntactically valid JSON object without an `event` string, or
whose `payload` is not an object, makes `HandleWebhook` panic via a failed
type assertion — for every signature, secret store and body, hence before
any signature verification can happen. -/
theorem handleWebhook_envelope_panics :
    ∀ (rawBody : List Nat) (signature : String) (store : SubStore)
      (configs : ConfigStore) (now : String),
      HandleWebhook [("payload", .jobj [("subscription", .jobj [("entity", .jobj
          [("id", .jstr "sub_A1")])])])] rawBody signature store configs now = .panic ∧
      HandleWebhook [("event", .jnum 5), ("payload", .jobj [])]
        rawBody signature store configs now = .panic ∧
      HandleWebhook [("event", .jstr "subscription.charged"), ("payload", .jstr "x")]
        rawBody signature store configs now = .panic := by
  intro rawBody signature store configs now
  exact ⟨rfl, rfl, rfl⟩

/-! ## C3: the both-zero checkout special case -/

/-- A checkout request explicitly passing `initial_charge_amount = 0` and
`first_charge_delay_days = 0` without a caller start time. -/
def zeroZeroReq : CreateSubscriptionRequest :=
  { planID := "plan_X", totalCount := 0, startAt := none, quantity := 0, notes := none,
    initialChargeAmount := some 0, firstChargeDelayDays := some 0 }

/-- A monthly plan of 49900 minor units as reported by the gateway. -/
def monthlyPlan49900 : PlanInfo := { amount := 49900, period := "monthly", currency := "INR" }

/-- C3 counterexample: on that request and plan the built payload DOES
contain an addon entry — the special case first overrides the initial
charge with the plan amount (49900 > 0) and only then the addon rule runs —
so the claim "contains no addon entry" is false at this input (the 30-day
start delay part does hold: 2592000 = 30 * 24 * 3600 seconds past now = 0). -/
theorem checkout_zero_zero_has_addon_counterexample :
    buildCheckoutData zeroZeroReq monthlyPlan49900 0 =
      .ok { planId := "plan_X", quantity := 1, customerNotify := false,
            addons := some { name := "Initial Charge", amount := 49900, currency := "INR" },
            totalCount := 120, expireBy := 604800, startAt := 2592000, notes := none } := by
  rfl

/-- C3 amended: for every checkout request that explicitly passes
`initial_charge_amount = 0` and `first_charge_delay_days = 0` against a
49900/monthly plan, the built payload contains an addon entry of the plan
amount 49900, and (absent a caller start time) its start time is 30 days
after now. -/
theorem checkout_zero_zero_plan_addon
    (planID : String) (totalCount quantity : Int) (notes : Option JObj)
    (currency : String) (now : Int)
    (hp : trimGo planID ≠ "") :
    ∃ d, buildCheckoutData
        { planID := planID, totalCount := totalCount, startAt := none, quantity := quantity,
          notes := notes, initialChargeAmount := some 0, firstChargeDelayDays := some 0 }
        { amount := 49900, period := "monthly", currency := currency } now = .ok d ∧
      d.addons = some { name := "Initial Charge", amount := 49900, currency := "INR" } ∧
      d.startAt = now + 30 * 24 * 3600 := by
  have hbe : (trimGo planID == "") = false := beq_eq_false_iff_ne.mpr hp
  have hml : toLowerGo "monthly" = "monthly" := rfl
  refine ⟨{ planId := trimGo planID,
            quantity := if 0 < quantity then quantity else 1,
            customerNotify := false,
            addons := some { name := "Initial Charge", amount := 49900, currency := "INR" },
            totalCount := if 0 < totalCount then totalCount else 120,
            expireBy := now + 7 * 24 * 3600,
            startAt := now + 30 * 24 * 3600, notes := notes }, ?_, rfl, rfl⟩
  unfold buildCheckoutData
  rw [if_neg (by simp [hbe])]
  simp [hml, periodDays]

/-- Witness for the amended C3 at a concrete request. -/
theorem checkout_zero_zero_plan_addon_witness :
    ∃ d, buildCheckoutData
        { planID := "plan_X", totalCount := 0, startAt := none, quantity := 0,
          notes := none, initialChargeAmount := some 0, firstChargeDelayDays := some 0 }
        { amount := 49900, period := "monthly", currency := "INR" } 0 = .ok d ∧
      d.addons = some { name := "Initial Charge", amount := 49900, currency := "INR" } ∧
      d.startAt = 0 + 30 * 24 * 3600 :=
  checkout_zero_zero_plan_addon "plan_X" 0 0 none "INR" 0 (by decide)

/-! ## C8: DecryptString rejects malformed ciphertext -/

/-- C8: with a valid key, every non-empty input whose base64 decoding is
shorter than the 12-byte nonce fails with the dedicated "ciphertext too
short" error; undecodable input fails with a base64 error; and a successful
result can only come from the authenticated AES-GCM open succeeding on the
nonce/ciphertext split — never fabricated plaintext. -/
theorem decryptString_rejects_malformed :
    (∀ (gcmOpen : List Nat → List Nat → List Nat → Option (List Nat))
       (key : List Nat) (s : String) (data : List Nat),
      validKeyLen key = true → s ≠ "" → base64Decode s = some data →
      data.length < gcmNonceSize →
      DecryptString gcmOpen key s = .error .ciphertextTooShort) ∧
    (∀ (gcmOpen : List Nat → List Nat → List Nat → Option (List Nat))
       (key : List Nat) (s : String),
      validKeyLen key = true → s ≠ "" → base64Decode s = none →
      DecryptString gcmOpen key s = .error .base64Error) ∧
    (∀ (gcmOpen : List Nat → List Nat → List Nat → Option (List Nat))
       (key : List Nat) (s : String) (plain : List Nat),
      DecryptString gcmOpen key s = .ok plain →
      (s = "" ∧ plain = []) ∨
      ∃ data, base64Decode s = some data ∧ gcmNonceSize ≤ data.length ∧
        gcmOpen key (data.take gcmNonceSize) (data.drop gcmNonceSize) = some plain) := by
  refine ⟨?_, ?_, ?_⟩
  · intro gcmOpen key s data hk hs hdec hlen
    simp [DecryptString, hk, hdec, hs, hlen]
  · intro gcmOpen key s hk hs hdec
    simp [DecryptString, hk, hdec, hs]
  · intro gcmOpen key s plain h
    simp only [DecryptString] at h
    by_cases hs : s = ""
    · rw [if_pos (by simp [hs])] at h
      injection h with h1
      exact Or.inl ⟨hs, h1.symm⟩
    · rw [if_neg (by simp [hs])] at h
      refine Or.inr ?_
      by_cases hk : validKeyLen key = true
      · rw [if_pos hk] at h
        cases hdec : base64Decode s with
        | none =>
          simp only [hdec] at h
          exact Except.noConfusion h
        | some data =>
          simp only [hdec] at h
          by_cases hlen : data.length < gcmNonceSize
          · rw [if_pos hlen] at h
            exact Except.noConfusion h
          · rw [if_neg hlen] at h
            cases hopen : gcmOpen key (data.take gcmNonceSize) (data.drop gcmNonceSize) with
            | none =>
              simp only [hopen] at h
              exact Except.noConfusion h
            | some p =>
              simp only [hopen] at h
              injection h with h1
              exact ⟨data, rfl, Nat.le_of_not_lt hlen, by rw [hopen, h1]⟩
      · rw [if_neg hk] at h
        exact Except.noConfusion h

/-- Witness for C8: "AAAA" decodes to three zero bytes, shorter than the
nonce, and decryption reports the dedicated error. -/
theorem decryptString_rejects_malformed_witness :
    DecryptString (fun _ _ _ => none) (List.replicate 16 0) "AAAA" =
      .error .ciphertextTooShort :=
  decryptString_rejects_malformed.1 (fun _ _ _ => none) (List.replicate 16 0) "AAAA"
    [0, 0, 0] (by decide) (by decide) rfl (by decide)

/-! ## C6: duplicate (app_name, environment) configs -/

/-- The duplicate-create request with the same (app, environment). -/
def dupCfgReq : CreateRazorpayConfigRequest :=
  { appName := "app", environment := "test", razorpayKeyID := "k2",
    razorpayKeySecret := "s2", razorpayWebhookSecret := "w2",
    isActive := none, metadata := none }

/-- C6 counterexample: when the first stored config is inactive, the
service's duplicate check (which filters on `is_active = true`) misses it
and the second create fails with the database unique-constraint violation,
which the service and handler do not classify as a conflict — so "fails
with a conflict error ... regardless of the first config's is_active flag"
is false at this input (no second record is persisted, though). -/
theorem config_duplicate_inactive_counterexample :
    CreateRazorpayConfig dupCfgReq [{ sampleConfig with isActive := false }] "cfg-2" 5 =
      .error .uniqueViolation ∧
    ConfigErr.uniqueViolation ≠ ConfigErr.conflict := by
  exact ⟨rfl, by decide⟩

/-- C6 amended: whenever any config with the same (app_name, environment)
already exists, the second create fails and persists nothing: with the
service's conflict error when the active-only lookup finds one, and with
the database unique-constraint violation when it does not (first config
inactive). -/
theorem config_duplicate_always_fails
    (req : CreateRazorpayConfigRequest) (store : ConfigStore) (newId : String) (tnow : Int)
    (c : RazorpayConfig) (hc : c ∈ store)
    (ha : c.appName = req.appName) (he : c.environment = req.environment) :
    (∃ e, CreateRazorpayConfig req store newId tnow = .error e) ∧
    ((findConfigByAppNameAndEnv store req.appName req.environment).isSome →
      CreateRazorpayConfig req store newId tnow = .error .conflict) ∧
    (findConfigByAppNameAndEnv store req.appName req.environment = none →
      CreateRazorpayConfig req store newId tnow = .error .uniqueViolation) := by
  have hany : store.any
      (fun d => d.appName == req.appName && d.environment == req.environment) = true :=
    List.any_eq_true.mpr ⟨c, hc, by simp [ha, he]⟩
  refine ⟨?_, ?_, ?_⟩
  · cases hfind : findConfigByAppNameAndEnv store req.appName req.environment with
    | some d => exact ⟨.conflict, by simp [CreateRazorpayConfig, hfind]⟩
    | none => exact ⟨.uniqueViolation, by simp [CreateRazorpayConfig, hfind,
        repoCreateConfig, hany]⟩
  · intro hsome
    cases hfind : findConfigByAppNameAndEnv store req.appName req.environment with
    | some d => simp [CreateRazorpayConfig, hfind]
    | none => rw [hfind] at hsome; cases hsome
  · intro hnone
    simp [CreateRazorpayConfig, hnone, repoCreateConfig, hany]

/-- Witness for the amended C6: both branches at concrete stores — an
active duplicate yields the conflict error, an inactive one the unique
violation. -/
theorem config_duplicate_always_fails_witness :
    CreateRazorpayConfig dupCfgReq [sampleConfig] "cfg-2" 5 = .error .conflict ∧
    CreateRazorpayConfig dupCfgReq [{ sampleConfig with isActive := false }] "cfg-2" 5 =
      .error .uniqueViolation :=
  ⟨(config_duplicate_always_fails dupCfgReq [sampleConfig] "cfg-2" 5 sampleConfig
      (List.mem_singleton.mpr rfl) rfl rfl).2.1 (by decide),
   (config_duplicate_always_fails dupCfgReq [{ sampleConfig with isActive := false }]
      "cfg-2" 5 { sampleConfig with isActive := false }
      (List.mem_singleton.mpr rfl) rfl rfl).2.2 rfl⟩

/-! ## Map and store lemmas shared by the replay / state-machine claims -/

theorem jlookup_jinsert_self (m : JObj) (k : String) (v : JValue) :
    jlookup (jinsert m k v) k = some v := by
  induction m with
  | nil => simp [jinsert, jlookup]
  | cons p rest ih =>
    obtain ⟨k1, v1⟩ := p
    by_cases h : k1 = k
    · subst h
      simp [jinsert, jlookup]
    · rw [jinsert, if_neg (by simpa using h), jlookup,
        List.find?_cons_of_neg _ (by simpa using h)]
      rw [jlookup] at ih
      exact ih

theorem jlookup_jinsert_ne (m : JObj) (k k2 : String) (v : JValue) (h : k2 ≠ k) :
    jlookup (jinsert m k v) k2 = jlookup m k2 := by
  induction m with
  | nil =>
    rw [jinsert, jlookup, jlookup]
    rw [List.find?_cons_of_neg _ (by simpa using Ne.symm h)]
  | cons p rest ih =>
    obtain ⟨k1, v1⟩ := p
    by_cases h1 : k1 = k
    · subst h1
      rw [jinsert, if_pos (by simp), jlookup, jlookup,
        List.find?_cons_of_neg _ (by simpa using Ne.symm h),
        List.find?_cons_of_neg _ (by simpa using Ne.symm h)]
    · rw [jinsert, if_neg (by simpa using h1)]
      by_cases h2 : k1 = k2
      · subst h2
        rw [jlookup, jlookup, List.find?_cons_of_pos _ (by simp),
          List.find?_cons_of_pos _ (by simp)]
      · rw [jlookup, jlookup, List.find?_cons_of_neg _ (by simpa using h2),
          List.find?_cons_of_neg _ (by simpa using h2)]
        rw [jlookup, jlookup] at ih
        exact ih

theorem metaAuthenticatedTrue_authMark (meta : JObj) (now : String) :
    metaAuthenticatedTrue (authMarkMetadata meta now) = true := by
  rw [authMarkMetadata]
  by_cases h : metaAuthenticatedTrue meta = true
  · rw [if_pos h]
    exact h
  · rw [if_neg h]
    by_cases h2 : (jlookup (jinsert meta "authenticated" (JValue.jbool true))
        "authenticated_at").isSome = true
    · rw [if_pos h2, metaAuthenticatedTrue, jlookup_jinsert_self]
    · rw [if_neg h2, metaAuthenticatedTrue,
        jlookup_jinsert_ne _ _ _ _ (by decide), jlookup_jinsert_self]

theorem authMark_of_true (meta : JObj) (now : String)
    (h : metaAuthenticatedTrue meta = true) : authMarkMetadata meta now = meta := by
  simp [authMarkMetadata, h]

theorem authTransition_id (ent : JObj) (now : String) (sub : Subscription) :
    (authTransition ent now sub).id = sub.id := by
  unfold authTransition
  repeat' split
  all_goals rfl

theorem authTransition_rzpID (ent : JObj) (now : String) (sub : Subscription) :
    (authTransition ent now sub).razorpaySubscriptionID = sub.razorpaySubscriptionID := by
  unfold authTransition
  repeat' split
  all_goals rfl

theorem authTransition_metadata (ent : JObj) (now : String) (sub : Subscription) :
    (authTransition ent now sub).metadata = authMarkMetadata sub.metadata now := by
  unfold authTransition
  repeat' split
  all_goals rfl

/-- Internal primary keys are pairwise distinct (the id column is the
primary key of the subscriptions table). -/
def UniqueIDs (store : SubStore) : Prop := store.Pairwise (fun a b => a.id ≠ b.id)

theorem uniqueIDs_updateSub (store : SubStore) (s1 : Subscription) (hu : UniqueIDs store) :
    UniqueIDs (updateSub store s1) := by
  induction store with
  | nil => exact List.Pairwise.nil
  | cons a rest ih =>
    have hu1 := List.pairwise_cons.mp hu
    rw [updateSub, List.map_cons]
    refine List.pairwise_cons.mpr ⟨?_, ih hu1.2⟩
    intro b hb
    obtain ⟨c, hc, rfl⟩ := List.mem_map.mp hb
    have hac : a.id ≠ c.id := hu1.1 c hc
    split <;> split
    · next h1 h2 => exact absurd ((eq_of_beq h1).trans (eq_of_beq h2).symm) hac
    · next h1 h2 =>
      intro hEq
      exact hac ((eq_of_beq h1).trans hEq)
    · next h1 h2 =>
      intro hEq
      exact hac (hEq.trans (eq_of_beq h2).symm)
    · next h1 h2 => exact hac

theorem find_updateSub (rid : String) (sub s1 : Subscription)
    (hid : s1.id = sub.id) (hrid : s1.razorpaySubscriptionID = sub.razorpaySubscriptionID) :
    ∀ store : SubStore, UniqueIDs store →
      findByRazorpaySubscriptionID store rid = some sub →
      findByRazorpaySubscriptionID (updateSub store s1) rid = some s1 := by
  intro store
  induction store with
  | nil =>
    intro _ hfind
    simp [findByRazorpaySubscriptionID] at hfind
  | cons a rest ih =>
    intro hu hfind
    rw [findByRazorpaySubscriptionID] at hfind
    by_cases ha : (a.razorpaySubscriptionID == rid) = true
    · have hsub : a = sub := by
        have := hfind
        rw [List.find?] at this
        simp only [ha] at this
        injection this
      have haid : (a.id == s1.id) = true := beq_iff_eq.mpr (by rw [hid, hsub])
      have hs1 : (s1.razorpaySubscriptionID == rid) = true := by
        rw [hrid, ← hsub]; exact ha
      simp [findByRazorpaySubscriptionID, updateSub, List.find?, haid, hs1]
    · rw [Bool.not_eq_true] at ha
      have hfr : findByRazorpaySubscriptionID rest rid = some sub := by
        have := hfind
        rw [List.find?] at this
        simpa only [ha] using this
      have hmem : sub ∈ rest := List.mem_of_find?_eq_some hfr
      have hane : a.id ≠ sub.id := (List.pairwise_cons.mp hu).1 sub hmem
      have haid : (a.id == s1.id) = false := by
        rw [beq_eq_false_iff_ne, hid]
        exact hane
      have hgoal : findByRazorpaySubscriptionID (updateSub rest s1) rid = some s1 :=
        ih (List.pairwise_cons.mp hu).2 hfr
      simpa [findByRazorpaySubscriptionID, updateSub, List.find?, haid, ha]
        using hgoal


/-! ## C7: replaying subscription.authenticated is idempotent on the marker -/

/-- C7: processing a `subscription.authenticated` event for a subscription
without the marker sets `metadata.authenticated` and
`metadata.authenticated_at` on the first processing; processing the same
event again completes without error and leaves the stored metadata (hence
both marker fields) exactly as the first processing wrote it. -/
theorem authenticated_replay_idempotent
    (payload : JObj) (ent : JObj) (rid : String) (store : SubStore) (sub : Subscription)
    (now1 now2 : String)
    (hu : UniqueIDs store)
    (hent : extractEntity payload = some ent)
    (hid : (jlookup ent "id").bind JValue.asString = some rid)
    (hfind : findByRazorpaySubscriptionID store rid = some sub)
    (hnc : (sub.status == SubscriptionStatusCancelled) = false)
    (hna : metaAuthenticatedTrue sub.metadata = false)
    (hnat : jlookup sub.metadata "authenticated_at" = none) :
    ∃ sub1 store2,
      handleSubscriptionAuthenticated payload now1 store = .ok (updateSub store sub1) ∧
      jlookup sub1.metadata "authenticated" = some (.jbool true) ∧
      jlookup sub1.metadata "authenticated_at" = some (.jstr now1) ∧
      handleSubscriptionAuthenticated payload now2 (updateSub store sub1) = .ok store2 ∧
      (findByRazorpaySubscriptionID store2 rid).map Subscription.metadata =
        some sub1.metadata := by
  refine ⟨authTransition ent now1 sub, ?_⟩
  have hmark : authMarkMetadata sub.metadata now1 =
      jinsert (jinsert sub.metadata "authenticated" (JValue.jbool true))
        "authenticated_at" (JValue.jstr now1) := by
    rw [authMarkMetadata, if_neg (by simp [hna]),
      if_neg (by rw [jlookup_jinsert_ne _ _ _ _ (by decide), hnat]; simp)]
  have hmeta1 : (authTransition ent now1 sub).metadata = authMarkMetadata sub.metadata now1 :=
    authTransition_metadata ent now1 sub
  have hauth : jlookup (authTransition ent now1 sub).metadata "authenticated" =
      some (.jbool true) := by
    rw [hmeta1, hmark, jlookup_jinsert_ne _ _ _ _ (by decide), jlookup_jinsert_self]
  have hauthAt : jlookup (authTransition ent now1 sub).metadata "authenticated_at" =
      some (.jstr now1) := by
    rw [hmeta1, hmark, jlookup_jinsert_self]
  have hone : handleSubscriptionAuthenticated payload now1 store =
      .ok (updateSub store (authTransition ent now1 sub)) := by
    simp only [handleSubscriptionAuthenticated, withEntity, hent, hid, hfind, hnc]
    simp
  have hfind1 : findByRazorpaySubscriptionID (updateSub store (authTransition ent now1 sub)) rid =
      some (authTransition ent now1 sub) :=
    find_updateSub rid sub (authTransition ent now1 sub)
      (authTransition_id ent now1 sub) (authTransition_rzpID ent now1 sub) store hu hfind
  have hmt : metaAuthenticatedTrue (authTransition ent now1 sub).metadata = true := by
    rw [hmeta1]; exact metaAuthenticatedTrue_authMark sub.metadata now1
  by_cases hcan1 : ((authTransition ent now1 sub).status == SubscriptionStatusCancelled) = true
  · -- the gateway-reported status happens to be "cancelled": the second
    -- processing takes the terminal guard and changes nothing
    refine ⟨updateSub store (authTransition ent now1 sub), hone, hauth, hauthAt, ?_, ?_⟩
    · simp only [handleSubscriptionAuthenticated, withEntity, hent, hid, hfind1, hcan1]
      simp
    · rw [hfind1]; rfl
  · -- otherwise the second processing rewrites the record, but the marker
    -- guard leaves the metadata untouched
    refine ⟨updateSub (updateSub store (authTransition ent now1 sub))
        (authTransition ent now2 (authTransition ent now1 sub)), hone, hauth, hauthAt, ?_, ?_⟩
    · simp only [handleSubscriptionAuthenticated, withEntity, hent, hid, hfind1, hcan1]
      simp
    · rw [find_updateSub rid (authTransition ent now1 sub) _
        (authTransition_id ent now2 _) (authTransition_rzpID ent now2 _) _
        (uniqueIDs_updateSub store _ hu) hfind1]
      simp only [Option.map_some', authTransition_metadata, hmeta1]
      rw [authMark_of_true _ _ (metaAuthenticatedTrue_authMark sub.metadata now1)]

/-- Witness for C7 at a concrete store. -/
theorem authenticated_replay_idempotent_witness :
    ∃ sub1 store2,
      handleSubscriptionAuthenticated authPayload "t1"
        [sampleSub SubscriptionStatusCreated []] =
        .ok (updateSub [sampleSub SubscriptionStatusCreated []] sub1) ∧
      jlookup sub1.metadata "authenticated" = some (.jbool true) ∧
      jlookup sub1.metadata "authenticated_at" = some (.jstr "t1") ∧
      handleSubscriptionAuthenticated authPayload "t2"
        (updateSub [sampleSub SubscriptionStatusCreated []] sub1) = .ok store2 ∧
      (findByRazorpaySubscriptionID store2 "sub_A1").map Subscription.metadata =
        some sub1.metadata :=
  authenticated_replay_idempotent authPayload _ "sub_A1"
    [sampleSub SubscriptionStatusCreated []] (sampleSub SubscriptionStatusCreated [])
    "t1" "t2" (List.pairwise_singleton _ _) rfl rfl rfl rfl rfl rfl

/-! ## C5: status monotonicity -/

/-- A verify-payment request for `sub_A1` carrying the correct HMAC under
the tenant key secret of `sampleConfig`. -/
def verifyReq : VerifyPaymentRequest :=
  { razorpaySubscriptionID := "sub_A1", razorpayPaymentID := "pay_P1",
    razorpaySignature := hexEncode (hmacSHA256 (strBytes "secret") (strBytes "pay_P1|sub_A1")) }

/-- C5 counterexample: `VerifyPayment` on an already-cancelled subscription
(valid signature, gateway confirms) moves it back to authenticated — the
status write at line 349 is unconditional — refuting both "no operation
moves a subscription out of cancelled" and "verify-payment on a
subscription already past authenticated does not move it back". -/
theorem verifyPayment_resurrects_cancelled_counterexample :
    VerifyPayment verifyReq [sampleSub SubscriptionStatusCancelled []] [sampleConfig]
        ["sub_A1"] "t1" =
      .ok ([sampleSub SubscriptionStatusAuthenticated
              [("authenticated", .jbool true), ("authenticated_at", .jstr "t1")]],
           sampleSub SubscriptionStatusAuthenticated
              [("authenticated", .jbool true), ("authenticated_at", .jstr "t1")]) := by
  rfl

/-- C5 amended: the cancelled-is-terminal rule is enforced only by the
`subscription.authenticated` handler (and `subscription.charged` promotes
only created/authenticated subscriptions, so it too preserves cancelled);
`VerifyPayment` instead sets the status to authenticated whenever its
signature and gateway checks pass, regardless of the prior status — so it
can move an active or cancelled subscription back to authenticated. -/
theorem status_transitions_amended :
    (∀ (payload : JObj) (now : String) (store : SubStore) (ent : JObj) (rid : String)
       (sub : Subscription),
      extractEntity payload = some ent →
      (jlookup ent "id").bind JValue.asString = some rid →
      findByRazorpaySubscriptionID store rid = some sub →
      sub.status = SubscriptionStatusCancelled →
      handleSubscriptionAuthenticated payload now store = .ok store) ∧
    (∀ (payload : JObj) (store : SubStore) (ent : JObj) (rid : String) (sub : Subscription),
      extractEntity payload = some ent →
      (jlookup ent "id").bind JValue.asString = some rid →
      findByRazorpaySubscriptionID store rid = some sub →
      sub.status = SubscriptionStatusCancelled →
      ∃ sub1, handleSubscriptionCharged payload store = .ok (updateSub store sub1) ∧
        sub1.status = SubscriptionStatusCancelled) ∧
    (∀ (req : VerifyPaymentRequest) (store : SubStore) (configs : ConfigStore)
       (gatewaySubs : List String) (now : String) (sub : Subscription)
       (config : RazorpayConfig),
      findByRazorpaySubscriptionID store req.razorpaySubscriptionID = some sub →
      findConfigByID configs sub.razorpayConfigID = some config →
      verifySignature (req.razorpayPaymentID ++ "|" ++ req.razorpaySubscriptionID)
        req.razorpaySignature config.razorpayKeySecret = true →
      gatewaySubs.contains req.razorpaySubscriptionID = true →
      ∃ sub1, VerifyPayment req store configs gatewaySubs now = .ok (updateSub store sub1, sub1) ∧
        sub1.status = SubscriptionStatusAuthenticated) := by
  refine ⟨?_, ?_, ?_⟩
  · intro payload now store ent rid sub hent hid hfind hcan
    simp only [handleSubscriptionAuthenticated, withEntity, hent, hid, hfind, hcan]
    simp
  · intro payload store ent rid sub hent hid hfind hcan
    refine ⟨(match (jlookup ent "charge_at").bind JValue.asNum with
      | some t => { sub with nextChargeAt := some t }
      | none => sub), ?_, ?_⟩
    · simp only [handleSubscriptionCharged, withEntity, hent, hid, hfind]
      cases hch : (jlookup ent "charge_at").bind JValue.asNum with
      | none => simp [hch, hcan, SubscriptionStatusCancelled, SubscriptionStatusCreated,
          SubscriptionStatusAuthenticated]
      | some t => simp [hch, hcan, SubscriptionStatusCancelled, SubscriptionStatusCreated,
          SubscriptionStatusAuthenticated]
    · cases hch : (jlookup ent "charge_at").bind JValue.asNum with
      | none => simpa using hcan
      | some t => simpa using hcan
  · intro req store configs gatewaySubs now sub config hfind hcfg hsig hgw
    refine ⟨({ sub with
                status := SubscriptionStatusAuthenticated
                metadata := authMarkMetadata sub.metadata now } : Subscription), ?_, rfl⟩
    simp only [VerifyPayment, hfind, hcfg, hsig, hgw]
    simp

/-- Witness for the amended C5: the authenticated and charged handlers leave
a concrete cancelled subscription cancelled, while `VerifyPayment` on a
concrete active subscription yields status authenticated. -/
theorem status_transitions_amended_witness :
    handleSubscriptionAuthenticated authPayload "t9" [sampleSub SubscriptionStatusCancelled []] =
      .ok [sampleSub SubscriptionStatusCancelled []] ∧
    (∃ sub1, handleSubscriptionCharged authPayload [sampleSub SubscriptionStatusCancelled []] =
        .ok (updateSub [sampleSub SubscriptionStatusCancelled []] sub1) ∧
      sub1.status = SubscriptionStatusCancelled) ∧
    (∃ sub1, VerifyPayment verifyReq [sampleSub SubscriptionStatusActive []] [sampleConfig]
        ["sub_A1"] "t1" =
        .ok (updateSub [sampleSub SubscriptionStatusActive []] sub1, sub1) ∧
      sub1.status = SubscriptionStatusAuthenticated) :=
  ⟨status_transitions_amended.1 authPayload "t9" [sampleSub SubscriptionStatusCancelled []]
      _ "sub_A1" (sampleSub SubscriptionStatusCancelled []) rfl rfl rfl rfl,
   status_transitions_amended.2.1 authPayload [sampleSub SubscriptionStatusCancelled []]
      _ "sub_A1" (sampleSub SubscriptionStatusCancelled []) rfl rfl rfl rfl,
   status_transitions_amended.2.2 verifyReq [sampleSub SubscriptionStatusActive []]
      [sampleConfig] ["sub_A1"] "t1" (sampleSub SubscriptionStatusActive []) sampleConfig
      rfl rfl (by rfl) rfl⟩

/-! ## C9: secrets never reach client-facing responses -/

/-- Two configs that agree on everything except (possibly) the three
credential fields. -/
def SecretsAgree (c d : RazorpayConfig) : Prop :=
  c.id = d.id ∧ c.appName = d.appName ∧ c.environment = d.environment ∧
  c.isActive = d.isActive ∧ c.metadata = d.metadata ∧
  c.createdAt = d.createdAt ∧ c.updatedAt = d.updatedAt

theorem toResponse_eq_of_secretsAgree {c d : RazorpayConfig} (h : SecretsAgree c d) :
    c.ToResponse = d.ToResponse := by
  obtain ⟨h1, h2, h3, h4, h5, h6, h7⟩ := h
  simp [RazorpayConfig.ToResponse, h1, h2, h3, h4, h5, h6, h7]

theorem find?_rel_of_forall₂ (p : RazorpayConfig → Bool)
    (hp : ∀ c d, SecretsAgree c d → p c = p d) :
    ∀ {s t : ConfigStore}, List.Forall₂ SecretsAgree s t →
      Option.Rel SecretsAgree (s.find? p) (t.find? p) := by
  intro s t h
  induction h with
  | nil => exact Option.Rel.none
  | @cons a b s1 t1 hab hrest ih =>
    have hpb : p b = p a := (hp a b hab).symm
    cases hpa : p a with
    | true =>
      simp only [List.find?, hpb, hpa]
      exact Option.Rel.some hab
    | false =>
      simp only [List.find?, hpb, hpa]
      exact ih

theorem forall₂_filter_isActive {s t : ConfigStore} (h : List.Forall₂ SecretsAgree s t) :
    List.Forall₂ SecretsAgree (s.filter fun c => c.isActive) (t.filter fun c => c.isActive) := by
  induction h with
  | nil => exact List.Forall₂.nil
  | @cons a b s1 t1 hab hrest ih =>
    have hb : b.isActive = a.isActive := hab.2.2.2.1.symm
    cases ha : a.isActive with
    | true =>
      simp only [List.filter_cons, ha, hb, if_pos]
      exact List.Forall₂.cons hab ih
    | false => simpa [List.filter_cons, ha, hb] using ih

theorem map_toResponse_eq {s t : ConfigStore} (h : List.Forall₂ SecretsAgree s t) :
    s.map RazorpayConfig.ToResponse = t.map RazorpayConfig.ToResponse := by
  induction h with
  | nil => rfl
  | cons hab hrest ih => simp [toResponse_eq_of_secretsAgree hab, ih]

theorem forall₂_any_eq (q : RazorpayConfig → Bool)
    (hq : ∀ c d, SecretsAgree c d → q c = q d) :
    ∀ {s t : ConfigStore}, List.Forall₂ SecretsAgree s t → s.any q = t.any q := by
  intro s t h
  induction h with
  | nil => rfl
  | cons hab hrest ih => simp [List.any_cons, hq _ _ hab, ih]

/-- C9: tenant credentials are noninterfering with every client-facing
config response: `ToResponse` is identical on configs that differ only in
the credential fields, and each service operation (get by id, get by
app/env, paginated list, create, update) produces identical responses over
any two stores that differ only in stored secret values. -/
theorem config_secrets_noninterference :
    (∀ c d : RazorpayConfig, SecretsAgree c d → c.ToResponse = d.ToResponse) ∧
    (∀ s t : ConfigStore, List.Forall₂ SecretsAgree s t → ∀ id,
      GetRazorpayConfigByID s id = GetRazorpayConfigByID t id) ∧
    (∀ s t : ConfigStore, List.Forall₂ SecretsAgree s t → ∀ appName env,
      GetRazorpayConfigByAppNameAndEnv s appName env =
      GetRazorpayConfigByAppNameAndEnv t appName env) ∧
    (∀ s t : ConfigStore, List.Forall₂ SecretsAgree s t →
      ∀ (page pageSize : Int) (activeOnly : Bool),
      GetAllRazorpayConfigs s page pageSize activeOnly =
      GetAllRazorpayConfigs t page pageSize activeOnly) ∧
    (∀ s t : ConfigStore, List.Forall₂ SecretsAgree s t →
      ∀ (req : CreateRazorpayConfigRequest) (newId : String) (tnow : Int),
      (CreateRazorpayConfig req s newId tnow).map (fun r => r.2) =
      (CreateRazorpayConfig req t newId tnow).map (fun r => r.2)) ∧
    (∀ s t : ConfigStore, List.Forall₂ SecretsAgree s t →
      ∀ (id : String) (req : UpdateRazorpayConfigRequest) (tnow : Int),
      (UpdateRazorpayConfig s id req tnow).map (fun r => r.2) =
      (UpdateRazorpayConfig t id req tnow).map (fun r => r.2)) := by
  refine ⟨fun c d h => toResponse_eq_of_secretsAgree h, ?_, ?_, ?_, ?_, ?_⟩
  · intro s t h id
    have hrel := find?_rel_of_forall₂ (fun c => c.id == id)
      (fun c d hcd => by simp only [hcd.1]) h
    unfold GetRazorpayConfigByID findConfigByID
    cases hs : s.find? (fun c => c.id == id) with
    | none =>
      cases ht : t.find? (fun c => c.id == id) with
      | none => rfl
      | some d =>
        rw [hs, ht] at hrel
        cases hrel
    | some c =>
      cases ht : t.find? (fun c => c.id == id) with
      | none =>
        rw [hs, ht] at hrel
        cases hrel
      | some d =>
        rw [hs, ht] at hrel
        cases hrel with
        | some hcd => simp [toResponse_eq_of_secretsAgree hcd]
  · intro s t h appName env
    have hrel := find?_rel_of_forall₂
      (fun c => c.appName == appName && c.environment == env && c.isActive)
      (fun c d hcd => by simp only [hcd.2.1, hcd.2.2.1, hcd.2.2.2.1]) h
    unfold GetRazorpayConfigByAppNameAndEnv findConfigByAppNameAndEnv
    cases hs : s.find? (fun c => c.appName == appName && c.environment == env && c.isActive) with
    | none =>
      cases ht : t.find? (fun c => c.appName == appName && c.environment == env && c.isActive) with
      | none => rfl
      | some d =>
        rw [hs, ht] at hrel
        cases hrel
    | some c =>
      cases ht : t.find? (fun c => c.appName == appName && c.environment == env && c.isActive) with
      | none =>
        rw [hs, ht] at hrel
        cases hrel
      | some d =>
        rw [hs, ht] at hrel
        cases hrel with
        | some hcd => simp [toResponse_eq_of_secretsAgree hcd]
  · intro s t h page pageSize activeOnly
    have hf : List.Forall₂ SecretsAgree
        (if activeOnly then s.filter (fun c => c.isActive) else s)
        (if activeOnly then t.filter (fun c => c.isActive) else t) := by
      cases activeOnly with
      | true => simpa using forall₂_filter_isActive h
      | false => simpa using h
    have hlen : (if activeOnly then s.filter (fun c => c.isActive) else s).length =
        (if activeOnly then t.filter (fun c => c.isActive) else t).length :=
      List.Forall₂.length_eq hf
    have hmap := map_toResponse_eq hf
    have hslice : ∀ o n,
        (((if activeOnly then s.filter (fun c => c.isActive) else s).drop o).take n).map
          RazorpayConfig.ToResponse =
        (((if activeOnly then t.filter (fun c => c.isActive) else t).drop o).take n).map
          RazorpayConfig.ToResponse := by
      intro o n
      rw [List.map_take, List.map_drop, hmap, ← List.map_drop, ← List.map_take]
    simp only [GetAllRazorpayConfigs]
    rw [hslice, hlen]
  · intro s t h req newId tnow
    have hrel := find?_rel_of_forall₂
      (fun c => c.appName == req.appName && c.environment == req.environment && c.isActive)
      (fun c d hcd => by simp only [hcd.2.1, hcd.2.2.1, hcd.2.2.2.1]) h
    have hany := forall₂_any_eq
      (fun d => d.appName == req.appName && d.environment == req.environment)
      (fun c d hcd => by simp only [hcd.2.1, hcd.2.2.1]) h
    unfold CreateRazorpayConfig findConfigByAppNameAndEnv repoCreateConfig
    cases hs : s.find?
        (fun c => c.appName == req.appName && c.environment == req.environment && c.isActive) with
    | some c =>
      cases ht : t.find?
          (fun c => c.appName == req.appName && c.environment == req.environment && c.isActive) with
      | some d => rfl
      | none =>
        rw [hs, ht] at hrel
        cases hrel
    | none =>
      cases ht : t.find?
          (fun c => c.appName == req.appName && c.environment == req.environment && c.isActive) with
      | some d =>
        rw [hs, ht] at hrel
        cases hrel
      | none =>
        dsimp only
        rw [hany]
        cases t.any (fun d => d.appName == req.appName && d.environment == req.environment) with
        | true => rfl
        | false => rfl
  · intro s t h id req tnow
    have hrel := find?_rel_of_forall₂ (fun c => c.id == id) (fun c d hcd => by simp only [hcd.1]) h
    unfold UpdateRazorpayConfig findConfigByID
    cases hs : s.find? (fun c => c.id == id) with
    | none =>
      cases ht : t.find? (fun c => c.id == id) with
      | none => rfl
      | some d =>
        rw [hs, ht] at hrel
        cases hrel
    | some c =>
      cases ht : t.find? (fun c => c.id == id) with
      | none =>
        rw [hs, ht] at hrel
        cases hrel
      | some d =>
        rw [hs, ht] at hrel
        cases hrel with
        | some hcd =>
          simp [Except.map, RazorpayConfig.ToResponse, hcd.1, hcd.2.1, hcd.2.2.1,
            hcd.2.2.2.1, hcd.2.2.2.2.1, hcd.2.2.2.2.2.1, hcd.2.2.2.2.2.2]

/-- A copy of `sampleConfig` with different credentials only. -/
def sampleConfigAlt : RazorpayConfig :=
  { sampleConfig with
    razorpayKeyID := "k9"
    razorpayKeySecret := "s9"
    razorpayWebhookSecret := "w9" }

/-- Witness for C9 at concrete stores whose only difference is the secret
values. -/
theorem config_secrets_noninterference_witness :
    GetRazorpayConfigByID [sampleConfig] "cfg-1" =
      GetRazorpayConfigByID [sampleConfigAlt] "cfg-1" ∧
    GetAllRazorpayConfigs [sampleConfig] 1 10 false =
      GetAllRazorpayConfigs [sampleConfigAlt] 1 10 false :=
  have hf : List.Forall₂ SecretsAgree [sampleConfig] [sampleConfigAlt] :=
    List.Forall₂.cons ⟨rfl, rfl, rfl, rfl, rfl, rfl, rfl⟩ List.Forall₂.nil
  ⟨config_secrets_noninterference.2.1 [sampleConfig] [sampleConfigAlt] hf "cfg-1",
   config_secrets_noninterference.2.2.2.1 [sampleConfig] [sampleConfigAlt] hf 1 10 false⟩

end GoBackend
